import Mathlib

/-!
Verification of the coastal-applications-workshop notebooks.

The notebooks build a cloud- and tide-aware compositing pipeline over
satellite imagery: raw digital numbers are masked and rescaled to
reflectance, spectral indices are derived by pixelwise arithmetic, a
per-pixel temporal median produces composites, tide heights select scenes
by quantile, training rows with missing features are dropped before a
classifier is fitted, and contour points are annotated with a change rate
or a no-significant-trend label.

This file gives a shallow embedding of those processing steps.  Pixel
samples are rationals; a missing sample (NaN in the arrays) is `none` of
an `Option`, and where the float special values matter (division by zero
inside the index formulas) an explicit extended-value type `RVal` models
IEEE semantics: `nan`, the two infinities and finite values.
-/

namespace Coastal

/-! ### Sorting and empirical quantiles

The tide notebook calls `tides_lowres.quantile([0.3, 0.7])`, which is the
standard linear-interpolation empirical quantile over the sorted series.
-/

/-- Sort a series of rationals into ascending order. -/
def sortQ (xs : List ℚ) : List ℚ := xs.insertionSort (fun a b => a ≤ b)

/-- Empirical quantile with linear interpolation, the default of the
array library used by the notebooks: for probability `p` and a series of
length `n`, the rank is `h = p * (n - 1)`, and the result interpolates
between the order statistics at positions `floor h` and `floor h + 1`. -/
def quantile (p : ℚ) (xs : List ℚ) : ℚ :=
  let s := sortQ xs
  let h := p * ((s.length : ℚ) - 1)
  let i := (⌊h⌋).toNat
  let g := h - (⌊h⌋ : ℚ)
  let a := s.getD i 0
  let b := s.getD (i + 1) a
  a + g * (b - a)

/-! ### Tide-quantile scene selection

From the high/low tide composite notebook:

  lowest, highest = tides_lowres.quantile([0.3, 0.7]).values
  low_scenes  = tides_lowres.where(tides_lowres < lowest, drop=True)
  high_scenes = tides_lowres.where(tides_lowres > highest, drop=True)

A scene series is modelled by the list of its per-scene aggregate tide
heights.
-/

/-- Scenes whose tide height is strictly below the 30th-percentile
boundary of the series. -/
def low_scenes (tides : List ℚ) : List ℚ :=
  tides.filter (fun t => decide (t < quantile (3/10) tides))

/-- Scenes whose tide height is strictly above the 70th-percentile
boundary of the series. -/
def high_scenes (tides : List ℚ) : List ℚ :=
  tides.filter (fun t => decide (quantile (7/10) tides < t))

/-- The middle-40% selection: the scenes kept once both extreme-tide
selections are discarded, i.e. the complement of `low_scenes` and
`high_scenes` within the series. -/
def middle_scenes (tides : List ℚ) : List ℚ :=
  tides.filter
    (fun t => decide (¬ t < quantile (3/10) tides ∧ ¬ quantile (7/10) tides < t))

/-! ### Mask and normalize

Landsat notebook:

  bitflags = 0b00011000
  cloud_mask = (data.qa_pixel.astype(int) & bitflags) != 0
  nodata = data.red == 0
  mask = cloud_mask | nodata
  scaled = (data.where(data != 0) * 0.0000275 + -0.2).clip(0, 1)
  masked = scaled.where(~mask)

Sentinel-2 machine-learning notebook:

  mask_flags = [1, 3, 8, 9, 10]
  cloud_mask = ~data.scl.isin(mask_flags)
  masked = data.where(cloud_mask)
  scaled = (masked.where(masked != 0) * 0.0001).clip(0, 1)
-/

/-- Clip a rational to the closed interval from `lo` to `hi`, as the
array library's clip does for finite inputs. -/
def clipQ (lo hi q : ℚ) : ℚ := min hi (max lo q)

/-- The Landsat Collection 2 digital-number rescaling
`dn * 0.0000275 + -0.2`. -/
def landsat_scale_offset (dn : ℕ) : ℚ := (dn : ℚ) * (275 / 10 ^ 7) + (-(2 / 10))

/-- The `scaled` stage for one Landsat sample: a zero digital number is
turned absent by `where(data != 0)`, anything else is rescaled and
clipped to the unit interval. -/
def landsat_scaled (dn : ℕ) : Option ℚ :=
  if dn = 0 then none else some (clipQ 0 1 (landsat_scale_offset dn))

/-- Cloud/shadow test on the `qa_pixel` band: bits 3 and 4
(mask `0b00011000`) non-zero. -/
def landsat_cloud_mask (qa : ℕ) : Bool := (qa &&& 0b00011000) != 0

/-- Combined invalid mask: cloudy bits or a zero red digital number. -/
def landsat_mask (qa red : ℕ) : Bool := landsat_cloud_mask qa || (red == 0)

/-- The `masked = scaled.where(~mask)` stage for one Landsat sample of a
band with digital number `dn`, given the pixel's `qa_pixel` value and red
digital number. -/
def landsat_masked (qa red dn : ℕ) : Option ℚ :=
  if landsat_mask qa red then none else landsat_scaled dn

/-- The Sentinel-2 scene-classification codes treated as invalid:
defective, shadow, medium/high-confidence cloud and cirrus. -/
def s2_mask_flags : List ℕ := [1, 3, 8, 9, 10]

/-- The test `cloud_mask = ~scl.isin(mask_flags)` (true means the pixel is kept). -/
def s2_cloud_free (scl : ℕ) : Bool := !(s2_mask_flags.contains scl)

/-- The stage `masked = data.where(cloud_mask)` for one Sentinel-2 sample. -/
def s2_masked (scl dn : ℕ) : Option ℕ :=
  if s2_cloud_free scl then some dn else none

/-- The stage `scaled = (masked.where(masked != 0) * 0.0001).clip(0, 1)` for one
Sentinel-2 sample. -/
def s2_scaled (scl dn : ℕ) : Option ℚ :=
  match s2_masked scl dn with
  | none => none
  | some d => if d = 0 then none else some (clipQ 0 1 ((d : ℚ) * (1 / 10 ^ 4)))

/-! ### Extended values for the index arithmetic

The index formulas divide band differences by band sums over float
arrays.  `RVal` models the float values that can arise there: `nan`
(which the arrays use for an absent sample), the two infinities, and
finite values as exact rationals.
-/

inductive RVal where
  | nan : RVal
  | pinf : RVal
  | ninf : RVal
  | fin : ℚ → RVal
deriving DecidableEq

/-- Float negation on extended values. -/
def rneg : RVal → RVal
  | .nan => .nan
  | .pinf => .ninf
  | .ninf => .pinf
  | .fin q => .fin (-q)

/-- Float addition on extended values: `nan` absorbs, and opposite
infinities give `nan`. -/
def radd : RVal → RVal → RVal
  | .nan, _ => .nan
  | _, .nan => .nan
  | .pinf, .ninf => .nan
  | .ninf, .pinf => .nan
  | .pinf, _ => .pinf
  | _, .pinf => .pinf
  | .ninf, _ => .ninf
  | _, .ninf => .ninf
  | .fin a, .fin b => .fin (a + b)

/-- Float subtraction on extended values. -/
def rsub (a b : RVal) : RVal := radd a (rneg b)

/-- Float multiplication on extended values: an infinity times zero is
`nan`, otherwise signs combine. -/
def rmul : RVal → RVal → RVal
  | .nan, _ => .nan
  | _, .nan => .nan
  | .pinf, .pinf => .pinf
  | .pinf, .ninf => .ninf
  | .ninf, .pinf => .ninf
  | .ninf, .ninf => .pinf
  | .pinf, .fin q => if q = 0 then .nan else if 0 < q then .pinf else .ninf
  | .fin q, .pinf => if q = 0 then .nan else if 0 < q then .pinf else .ninf
  | .ninf, .fin q => if q = 0 then .nan else if 0 < q then .ninf else .pinf
  | .fin q, .ninf => if q = 0 then .nan else if 0 < q then .ninf else .pinf
  | .fin a, .fin b => .fin (a * b)

/-- Float division on extended values: zero over zero is `nan`, a
non-zero finite value over zero is a signed infinity, infinity over
infinity is `nan`. -/
def rdiv : RVal → RVal → RVal
  | .nan, _ => .nan
  | _, .nan => .nan
  | .pinf, .pinf => .nan
  | .pinf, .ninf => .nan
  | .ninf, .pinf => .nan
  | .ninf, .ninf => .nan
  | .pinf, .fin q => if 0 ≤ q then .pinf else .ninf
  | .ninf, .fin q => if 0 ≤ q then .ninf else .pinf
  | .fin _, .pinf => .fin 0
  | .fin _, .ninf => .fin 0
  | .fin a, .fin b =>
      if b = 0 then (if a = 0 then .nan else if 0 < a then .pinf else .ninf)
      else .fin (a / b)

/-- Float clip: `nan` passes through, infinities land on the bounds,
finite values are clamped. -/
def rclip (lo hi : ℚ) : RVal → RVal
  | .nan => .nan
  | .pinf => .fin hi
  | .ninf => .fin lo
  | .fin q => .fin (min hi (max lo q))

/-! ### Spectral index formulas

Coastal-change notebook:

  mndwi = (green - swir16) / (green + swir16)
  ndwi  = (green - nir08) / (green + nir08)
  combined = (mndwi + ndwi) / 2

Machine-learning notebook:

  ndvi = (nir08 - red) / (nir08 + red)
  ndwi = (green - nir08) / (green + nir08)
  mvi  = (((nir08 - green) / (swir16 - green)) * 0.1).clip(-1, 1)
-/

/-- The common normalized-difference shape `(a - b) / (a + b)` shared by
the mndwi, ndwi and ndvi formulas. -/
def normalizedDifference (a b : RVal) : RVal := rdiv (rsub a b) (radd a b)

/-- Formula `mndwi = (green - swir16) / (green + swir16)`. -/
def mndwi (green swir16 : RVal) : RVal := rdiv (rsub green swir16) (radd green swir16)

/-- Formula `ndwi = (green - nir08) / (green + nir08)`. -/
def ndwi (green nir08 : RVal) : RVal := rdiv (rsub green nir08) (radd green nir08)

/-- Formula `combined = (mndwi + ndwi) / 2`. -/
def combined (green swir16 nir08 : RVal) : RVal :=
  rdiv (radd (mndwi green swir16) (ndwi green nir08)) (RVal.fin 2)

/-- Formula `ndvi = (nir08 - red) / (nir08 + red)`. -/
def ndvi (nir08 red : RVal) : RVal := rdiv (rsub nir08 red) (radd nir08 red)

/-- Formula `mvi = (((nir08 - green) / (swir16 - green)) * 0.1).clip(-1, 1)`. -/
def mvi (nir08 green swir16 : RVal) : RVal :=
  rclip (-1) 1 (rmul (rdiv (rsub nir08 green) (rsub swir16 green)) (RVal.fin (1/10)))

/-! ### Temporal median composite

The notebooks reduce with `median("time")` (or
`groupby("time.year").median()`), the skip-NaN median: at each pixel the
absent time-steps are dropped and the median of the remaining values is
taken, averaging the two central order statistics for an even count; a
pixel absent at every time-step stays absent.
-/

/-- Median of a series of rationals: middle order statistic, or the mean
of the two middle ones for an even count; `none` on the empty series. -/
def medianQ (l : List ℚ) : Option ℚ :=
  let s := sortQ l
  let n := s.length
  if n = 0 then none
  else if n % 2 = 1 then some (s.getD (n / 2) 0)
  else some ((s.getD (n / 2 - 1) 0 + s.getD (n / 2) 0) / 2)

/-- Skip-NaN temporal median of one pixel's series of samples. -/
def medianT (xs : List (Option ℚ)) : Option ℚ := medianQ (xs.filterMap id)

/-- Per-pixel temporal median composite of a band stack: the stack is a
list of time-steps, each a flattened grid of `w` samples, and each of the
`w` pixels is reduced independently over time. -/
def composite (w : ℕ) (rows : List (List (Option ℚ))) : List (Option ℚ) :=
  (List.range w).map (fun i => medianT (rows.map (fun r => r.getD i none)))

/-! ### Tide-cutoff scene filtering

Coastal-change notebook:

  tide_bool = (tides_hires >= tide_cutoff_min) & (tides_hires <= tide_cutoff_max)
  data_filtered = masked.sel(time=tide_bool.sum(dim=["x", "y"]) > 0)
-/

/-- One scene: its image samples and the per-pixel interpolated tide
heights on the same grid. -/
structure Scene where
  image : List (Option ℚ)
  tides : List ℚ

/-- Per-pixel tide test `(t >= tide_cutoff_min) & (t <= tide_cutoff_max)`. -/
def tide_bool (cmin cmax t : ℚ) : Bool := decide (cmin ≤ t) && decide (t ≤ cmax)

/-- Number of pixels of a scene satisfying the tide cutoffs, the
`tide_bool.sum(dim=["x", "y"])` of the notebook. -/
def qualifying_count (cmin cmax : ℚ) (s : Scene) : ℕ :=
  s.tides.countP (tide_bool cmin cmax)

/-- The selection `data_filtered`: keep the scenes whose qualifying-pixel count is
positive. -/
def data_filtered (cmin cmax : ℚ) (scenes : List Scene) : List Scene :=
  scenes.filter (fun s => decide (0 < qualifying_count cmin cmax s))

/-! ### Training rows and dropna

Machine-learning notebook:

  training_array = pd.concat([training["Class"], training_values], axis=1)
  training_array = training_array.dropna()
-/

/-- One training row: a class label and the feature values sampled from
the composite, each possibly absent. -/
structure TrainingRow where
  label : ℚ
  features : List (Option ℚ)

/-- The stage `dropna`: keep only the rows whose every feature value is present. -/
def dropna (rows : List TrainingRow) : List TrainingRow :=
  rows.filter (fun r => r.features.all (fun x => x.isSome))

/-! ### Pixel-wise prediction

Machine-learning notebook:

  stacked_arrays = stacked_arrays.fillna(0)
  predicted = model.predict(stacked_arrays)
-/

/-- The stage `fillna(0)`: replace every absent feature value by zero. -/
def fillna (v : List (Option ℚ)) : List ℚ := v.map (fun x => x.getD 0)

/-- Pixel-wise prediction: the (opaque) trained classifier, a total
function from feature vectors to class labels, applied to every pixel's
zero-filled feature vector. -/
def predicted (model : List ℚ → ℕ) (stacked_arrays : List (List (Option ℚ))) : List ℕ :=
  stacked_arrays.map (fun v => model (fillna v))

/-! ### Contour-point change labels

Coastal-change notebook:

  points_gdf["Coastal change"] = points_gdf.apply(
      lambda x: "... retreated/grown by {x.rate_time} m (± {x.se_time}) per year ...", axis=1)
  points_gdf.loc[points_gdf.sig_time > 0.05, "Coastal change"] = "No significant trend ..."
-/

/-- One contour sample point with its regression outputs: rate of
movement, standard error and significance (p-value). -/
structure Point where
  rate_time : ℚ
  se_time : ℚ
  sig_time : ℚ
deriving Inhabited

/-- The rendered label of a point: either no significant trend, or a
signed yearly rate (flagged retreated when negative) with its standard
error. -/
inductive ChangeReport where
  | noSignificantTrend : ChangeReport
  | ratePerYear : Bool → ℚ → ℚ → ChangeReport
deriving DecidableEq

/-- The first assignment: every point gets a rate label, retreated when
`rate_time < 0` and grown otherwise, showing rate and standard error. -/
def change_label (x : Point) : ChangeReport :=
  ChangeReport.ratePerYear (decide (x.rate_time < 0)) x.rate_time x.se_time

/-- The full labelling: the rate labels of all points, then the rows with
`sig_time > 0.05` overwritten with the no-significant-trend label. -/
def coastal_change (pts : List Point) : List ChangeReport :=
  List.zipWith
    (fun p r => if (1 : ℚ)/20 < p.sig_time then ChangeReport.noSignificantTrend else r)
    pts (pts.map change_label)

/-! ## Helper lemmas -/

/-- Sorting is invariant under permutation of the input series. -/
theorem sortQ_perm_eq {l l' : List ℚ} (h : l.Perm l') : sortQ l = sortQ l' :=
  List.eq_of_perm_of_sorted
    ((List.perm_insertionSort _ l).trans (h.trans (List.perm_insertionSort _ l').symm))
    (List.sorted_insertionSort _ l) (List.sorted_insertionSort _ l')

/-- The median of a series of rationals is invariant under permutation. -/
theorem medianQ_perm {l l' : List ℚ} (h : l.Perm l') : medianQ l = medianQ l' := by
  simp only [medianQ, sortQ_perm_eq h]

/-- The skip-NaN temporal median is invariant under permutation of the
time-steps. -/
theorem medianT_perm {xs ys : List (Option ℚ)} (h : xs.Perm ys) :
    medianT xs = medianT ys :=
  medianQ_perm (h.filterMap id)

/-- A value clipped to the unit interval lies in the unit interval. -/
theorem clipQ01_mem (q : ℚ) : 0 ≤ clipQ 0 1 q ∧ clipQ 0 1 q ≤ 1 :=
  ⟨le_min (by norm_num) (le_max_left 0 q), min_le_left 1 _⟩

/-- The middle-40% selection is exactly the complement, within the
series, of the two extreme-tide selections of the source. -/
theorem middle_scenes_eq_complement (tides : List ℚ) (t : ℚ) :
    t ∈ middle_scenes tides ↔
      t ∈ tides ∧ t ∉ low_scenes tides ∧ t ∉ high_scenes tides := by
  simp only [middle_scenes, low_scenes, high_scenes, List.mem_filter,
    decide_eq_true_eq, not_and]
  constructor
  · rintro ⟨ht, h1, h2⟩
    exact ⟨ht, fun _ => h1, fun _ => h2⟩
  · rintro ⟨ht, h1, h2⟩
    exact ⟨ht, h1 ht, h2 ht⟩

/-! ## Claims -/

/-- C1 (amended): the middle-40% tide filter retains exactly the
time-steps whose per-scene aggregate tide value lies in the closed
interval between the 30th and 70th percentile boundaries computed from
the same series — boundary values included, since the extreme-tide
selections it complements use strict comparisons. -/
theorem middle_scenes_retains_closed_quantile_interval (tides : List ℚ) (t : ℚ) :
    t ∈ middle_scenes tides ↔
      t ∈ tides ∧ quantile (3/10) tides ≤ t ∧ t ≤ quantile (7/10) tides := by
  simp [middle_scenes, List.mem_filter, not_lt]

/-- C1 fails as stated: on the synthetic tide series 0, 1, ..., 10 the
quantile boundaries 3 and 7 are themselves attained by time-steps, the
middle selection keeps them, and so it differs from the set of
time-steps lying strictly between the boundaries. -/
theorem middle_scenes_strict_quantile_counterexample :
    middle_scenes [0,1,2,3,4,5,6,7,8,9,10] ≠
      ([0,1,2,3,4,5,6,7,8,9,10] : List ℚ).filter
        (fun t => decide (quantile (3/10) [0,1,2,3,4,5,6,7,8,9,10] < t ∧
          t < quantile (7/10) [0,1,2,3,4,5,6,7,8,9,10])) := by
  norm_num [middle_scenes, quantile, sortQ, List.insertionSort, List.orderedInsert,
    List.getD, Int.toNat, List.filter]

/-- C2 (amended): a Landsat sample is absent exactly when the pixel has
cloud/shadow bits set, a zero red digital number, or a zero digital
number in the band itself; every present sample is the scaled value
clipped to the unit interval, and it equals the unclipped scaled value
whenever that value already lies in the unit interval.  An out-of-range
scaled value is therefore clamped, not marked absent. -/
theorem landsat_masked_clamps_and_masks (qa red dn : ℕ) :
    (landsat_masked qa red dn = none ↔
      ((qa &&& 0b00011000) ≠ 0 ∨ red = 0 ∨ dn = 0)) ∧
    (∀ v, landsat_masked qa red dn = some v →
      v = clipQ 0 1 (landsat_scale_offset dn) ∧
      (0 ≤ landsat_scale_offset dn → landsat_scale_offset dn ≤ 1 →
        v = landsat_scale_offset dn)) := by
  constructor
  · simp only [landsat_masked, landsat_mask, landsat_cloud_mask, landsat_scaled]
    by_cases hqa : qa &&& 0b00011000 = 0 <;> by_cases hred : red = 0 <;>
      by_cases hdn : dn = 0 <;> simp [hqa, hred, hdn]
  · intro v hv
    simp only [landsat_masked, landsat_scaled] at hv
    split at hv
    · exact absurd hv (by simp)
    · split at hv
      · exact absurd hv (by simp)
      · refine ⟨by injection hv with h; exact h.symm, fun h0 h1 => ?_⟩
        injection hv with h
        rw [← h, clipQ, max_eq_right h0, min_eq_right h1]

/-- Witness for C2 at a concrete pixel: qa_pixel 0, red 1, digital
number 40000 is present and its sample is the clipped scaled value. -/
theorem landsat_masked_clamps_and_masks_witness :
    (9 : ℚ)/10 = clipQ 0 1 (landsat_scale_offset 40000) ∧
    (9 : ℚ)/10 = landsat_scale_offset 40000 := by
  have h := (landsat_masked_clamps_and_masks 0 1 40000).2 (9/10)
    (by norm_num [landsat_masked, landsat_mask, landsat_cloud_mask, landsat_scaled,
      landsat_scale_offset, clipQ])
  exact ⟨h.1, h.2 (by norm_num [landsat_scale_offset]) (by norm_num [landsat_scale_offset])⟩

/-- C2 fails as stated: at qa_pixel 0, red 1, digital number 50000 the
scaled value 47/40 lies outside the unit interval, yet the stage outputs
the clamped present sample 1 rather than an absent one. -/
theorem landsat_out_of_range_clamped_counterexample :
    landsat_masked 0 1 50000 = some 1 ∧
    landsat_scale_offset 50000 = 47/40 ∧ ¬ landsat_scale_offset 50000 ≤ 1 := by
  norm_num [landsat_masked, landsat_mask, landsat_cloud_mask, landsat_scaled,
    landsat_scale_offset, clipQ]

/-- C3: every present sample produced by the mask-and-normalize stage —
for the Landsat convention and for the Sentinel-2 convention alike —
lies in the closed unit interval. -/
theorem masked_reflectance_mem_unit_interval :
    (∀ qa red dn : ℕ, ∀ v, landsat_masked qa red dn = some v → 0 ≤ v ∧ v ≤ 1) ∧
    (∀ scl dn : ℕ, ∀ v, s2_scaled scl dn = some v → 0 ≤ v ∧ v ≤ 1) := by
  constructor
  · intro qa red dn v hv
    simp only [landsat_masked, landsat_scaled] at hv
    split at hv
    · exact absurd hv (by simp)
    · split at hv
      · exact absurd hv (by simp)
      · injection hv with h
        exact h ▸ clipQ01_mem _
  · intro scl dn v hv
    simp only [s2_scaled, s2_masked] at hv
    split at hv
    · exact absurd hv (by simp)
    · split at hv
      · exact absurd hv (by simp)
      · injection hv with h
        exact h ▸ clipQ01_mem _

/-- Witness for C3 at a concrete Sentinel-2 sample: scene class 4,
digital number 2000 gives the present reflectance 1/5, inside the unit
interval. -/
theorem masked_reflectance_mem_unit_interval_witness :
    0 ≤ (1 : ℚ)/5 ∧ (1 : ℚ)/5 ≤ 1 :=
  masked_reflectance_mem_unit_interval.2 4 2000 (1/5)
    (by norm_num [s2_scaled, s2_masked, s2_cloud_free, s2_mask_flags, clipQ])


/-- Antisymmetry of the normalized-difference shape on finite inputs,
including the cases where the denominator is zero. -/
theorem nd_fin_antisymm (a b : ℚ) :
    rdiv (rsub (.fin a) (.fin b)) (radd (.fin a) (.fin b))
      = rneg (rdiv (rsub (.fin b) (.fin a)) (radd (.fin b) (.fin a))) := by
  simp only [rsub, rneg, radd, rdiv]
  by_cases h : a + b = 0
  · have h' : b + a = 0 := by linarith
    rw [if_pos h, if_pos h']
    by_cases h2 : a + -b = 0
    · have h2' : b + -a = 0 := by linarith
      rw [if_pos h2, if_pos h2']
    · by_cases h3 : 0 < a + -b
      · have h2' : ¬ b + -a = 0 := fun hh => h2 (by linarith)
        have h3' : ¬ 0 < b + -a := by intro hh; linarith
        rw [if_neg h2, if_pos h3, if_neg h2', if_neg h3']
      · have h2' : ¬ b + -a = 0 := fun hh => h2 (by linarith)
        have hlt : a + -b < 0 := lt_of_le_of_ne (not_lt.mp h3) h2
        have h3' : 0 < b + -a := by linarith
        rw [if_neg h2, if_neg h3, if_neg h2', if_pos h3']
  · have h' : ¬ b + a = 0 := fun hh => h (by linarith)
    rw [if_neg h, if_neg h']
    have hdiv : (b + -a) / (b + a) = -((a + -b) / (a + b)) := by
      rw [show b + -a = -(a + -b) by ring, show b + a = a + b by ring, neg_div]
    simp [rneg, hdiv]

/-- C7: swapping the two input bands of a normalized-difference index
negates the result exactly, for every pair of finite (present) band
values, and in particular for the mndwi, ndwi and ndvi formulas of the
notebooks. -/
theorem normalized_difference_antisymm (a b : ℚ) :
    normalizedDifference (.fin a) (.fin b)
        = rneg (normalizedDifference (.fin b) (.fin a)) ∧
    mndwi (.fin a) (.fin b) = rneg (mndwi (.fin b) (.fin a)) ∧
    ndwi (.fin a) (.fin b) = rneg (ndwi (.fin b) (.fin a)) ∧
    ndvi (.fin a) (.fin b) = rneg (ndvi (.fin b) (.fin a)) :=
  ⟨nd_fin_antisymm a b, nd_fin_antisymm a b, nd_fin_antisymm a b, nd_fin_antisymm a b⟩

/-- C4 (amended): when an index denominator vanishes on present
nonnegative reflectances the division is zero over zero and the result is
absent (`nan`); an absent operand propagates to an absent index value;
and the temporal median ignores absent time-steps.  (The mvi formula is
the exception recorded separately: there a non-zero numerator over a zero
denominator gives an infinity that the final clip makes present.) -/
theorem nan_propagates_and_median_skips_absent :
    (∀ a b : ℚ, 0 ≤ a → 0 ≤ b → a + b = 0 →
      mndwi (.fin a) (.fin b) = RVal.nan ∧ ndwi (.fin a) (.fin b) = RVal.nan ∧
        ndvi (.fin a) (.fin b) = RVal.nan) ∧
    (∀ x : RVal, mndwi RVal.nan x = RVal.nan ∧ mndwi x RVal.nan = RVal.nan ∧
      ndwi RVal.nan x = RVal.nan ∧ ndwi x RVal.nan = RVal.nan ∧
      ndvi RVal.nan x = RVal.nan ∧ ndvi x RVal.nan = RVal.nan) ∧
    (∀ xs : List (Option ℚ), medianT (none :: xs) = medianT xs) := by
  refine ⟨?_, ?_, ?_⟩
  · intro a b ha hb hab
    have ha0 : a = 0 := le_antisymm (by linarith) ha
    have hb0 : b = 0 := le_antisymm (by linarith) hb
    subst ha0; subst hb0
    norm_num [mndwi, ndwi, ndvi, rdiv, rsub, radd, rneg]
  · intro x
    cases x <;> simp [mndwi, ndwi, ndvi, rdiv, rsub, radd, rneg]
  · intro xs
    simp [medianT, List.filterMap_cons]

/-- Witness for C4 at concrete inputs: both bands zero gives an absent
mndwi value, and an absent time-step does not change the median. -/
theorem nan_propagates_and_median_skips_absent_witness :
    mndwi (.fin 0) (.fin 0) = RVal.nan ∧
    medianT [none, some 2] = medianT [some 2] :=
  ⟨(nan_propagates_and_median_skips_absent.1 0 0 le_rfl le_rfl (by norm_num)).1,
   nan_propagates_and_median_skips_absent.2.2 [some 2]⟩

/-- C4 fails as stated for the mvi formula: with present bands
nir08 = 1/2, green = 3/10, swir16 = 3/10 the denominator
swir16 - green is exactly zero, yet the index value is the present
(clamped) sample 1, not an absent one. -/
theorem mvi_div_zero_present_counterexample :
    rsub (.fin (3/10)) (.fin (3/10)) = .fin 0 ∧
    mvi (.fin (1/2)) (.fin (3/10)) (.fin (3/10)) = .fin 1 ∧
    RVal.fin 1 ≠ RVal.nan := by
  refine ⟨by norm_num [rsub, radd, rneg], ?_, by simp⟩
  norm_num [mvi, rclip, rmul, rdiv, rsub, radd, rneg]

/-- C5: dropping the training rows with an absent feature removes
exactly those rows — the count decreases by the number of incomplete
rows, the retained rows are an unaltered subsequence of the input, and
every retained row has a fully populated feature vector. -/
theorem dropna_removes_exactly_incomplete_rows (rows : List TrainingRow) :
    (dropna rows).length
        = rows.length
          - rows.countP (fun r => !(r.features.all (fun x => x.isSome))) ∧
    (dropna rows).Sublist rows ∧
    ∀ r ∈ dropna rows, ∀ x ∈ r.features, x.isSome = true := by
  refine ⟨?_, List.filter_sublist rows, ?_⟩
  · have key : rows.countP (fun r => !(r.features.all (fun x => x.isSome)))
        + rows.countP (fun r => r.features.all (fun x => x.isSome))
        = rows.length := by
      induction rows with
      | nil => rfl
      | cons r t ih =>
        simp only [List.countP_cons, List.length_cons]
        by_cases hr : r.features.all (fun x => x.isSome) = true
        · rw [if_neg (by simp [hr]), if_pos hr]
          omega
        · have hrf : r.features.all (fun x => x.isSome) = false := by
            simpa [Bool.not_eq_true] using hr
          rw [if_pos (by simp [hrf]), if_neg hr]
          omega
    have h1 := List.countP_eq_length_filter
      (fun r : TrainingRow => r.features.all (fun x => x.isSome)) rows
    simp only [dropna]
    omega
  · intro r hr x hx
    simp only [dropna, List.mem_filter] at hr
    exact (List.all_eq_true.mp hr.2) x hx

/-- Witness for C5 on a concrete two-row training set with one
incomplete row: one row is dropped and the retained row is fully
populated. -/
theorem dropna_removes_exactly_incomplete_rows_witness :
    (dropna [⟨1, [some 1, none]⟩, ⟨2, [some 2, some 3]⟩]).length
        = ([⟨1, [some 1, none]⟩, ⟨2, [some 2, some 3]⟩] : List TrainingRow).length
          - ([⟨1, [some 1, none]⟩, ⟨2, [some 2, some 3]⟩] : List TrainingRow).countP
              (fun r => !(r.features.all (fun x => x.isSome))) ∧
    ∀ x ∈ (⟨2, [some 2, some 3]⟩ : TrainingRow).features, x.isSome = true :=
  ⟨(dropna_removes_exactly_incomplete_rows
      [⟨1, [some 1, none]⟩, ⟨2, [some 2, some 3]⟩]).1,
   (dropna_removes_exactly_incomplete_rows
      [⟨1, [some 1, none]⟩, ⟨2, [some 2, some 3]⟩]).2.2
     ⟨2, [some 2, some 3]⟩ (by simp [dropna])⟩

/-- C6: the tide-cutoff filter keeps a scene exactly when at least one
of its pixels has a tide height within the cutoffs; a scene with zero
qualifying pixels is removed from the time axis. -/
theorem data_filtered_mem_iff_qualifying_pixel (cmin cmax : ℚ)
    (scenes : List Scene) (s : Scene) :
    s ∈ data_filtered cmin cmax scenes ↔
      s ∈ scenes ∧ ∃ t ∈ s.tides, cmin ≤ t ∧ t ≤ cmax := by
  simp [data_filtered, List.mem_filter, qualifying_count, List.countP_pos_iff,
    tide_bool]

/-- C8: the per-pixel temporal median composite is invariant under any
permutation of the time-steps of the band stack. -/
theorem composite_perm_invariant (w : ℕ) (rows rows' : List (List (Option ℚ)))
    (h : rows.Perm rows') : composite w rows = composite w rows' := by
  simp only [composite]
  exact List.map_congr_left
    (fun i _ => medianT_perm (h.map (fun r => r.getD i none)))

/-- Witness for C8 on a concrete one-pixel stack with two time-steps
swapped. -/
theorem composite_perm_invariant_witness :
    composite 1 [[some 1], [some 3]] = composite 1 [[some 3], [some 1]] :=
  composite_perm_invariant 1 _ _ (List.Perm.swap _ _ _)

/-- C9: a contour point whose regression p-value exceeds the 0.05
cutoff is reported with the no-significant-trend label, and otherwise it
is reported with its signed rate (flagged retreated exactly when the
rate is negative) together with its standard error, per year. -/
theorem coastal_change_significance_cutoff (pts : List Point) (i : ℕ)
    (hi : i < pts.length) :
    ((1 : ℚ)/20 < (pts.getD i default).sig_time →
      (coastal_change pts).getD i ChangeReport.noSignificantTrend
        = ChangeReport.noSignificantTrend) ∧
    ((pts.getD i default).sig_time ≤ (1 : ℚ)/20 →
      (coastal_change pts).getD i ChangeReport.noSignificantTrend
        = ChangeReport.ratePerYear (decide ((pts.getD i default).rate_time < 0))
            (pts.getD i default).rate_time (pts.getD i default).se_time) := by
  induction pts generalizing i with
  | nil => simp at hi
  | cons p ps ih =>
    cases i with
    | zero =>
      have hhead : (coastal_change (p :: ps)).getD 0 ChangeReport.noSignificantTrend
          = if (1 : ℚ)/20 < p.sig_time then ChangeReport.noSignificantTrend
            else change_label p := rfl
      simp only [List.getD_cons_zero]
      constructor
      · intro h
        rw [hhead, if_pos h]
      · intro h
        rw [hhead, if_neg (not_lt.mpr h)]
        rfl
    | succ n =>
      have hn : n < ps.length := by simpa using hi
      have := ih n hn
      simpa [coastal_change, List.zipWith, List.getD_cons_succ] using this

/-- Witness for C9 on a concrete point with p-value 1/10, above the
cutoff: the report is the no-significant-trend label. -/
theorem coastal_change_significance_cutoff_witness :
    (coastal_change [⟨-2, 1, 1/10⟩]).getD 0 ChangeReport.noSignificantTrend
      = ChangeReport.noSignificantTrend :=
  (coastal_change_significance_cutoff [⟨-2, 1, 1/10⟩] 0 (by norm_num)).1
    (by norm_num [List.getD_cons_zero])

/-- C10: prediction replaces every absent feature value by zero and is
applied to every pixel — the grid has one label per pixel, an
entirely-absent feature vector becomes the all-zero vector, and each
pixel's label (computed from its zero-filled vector) appears in the
grid. -/
theorem predicted_fillna_zero_total (model : List ℚ → ℕ)
    (pixels : List (List (Option ℚ))) :
    (predicted model pixels).length = pixels.length ∧
    (∀ v : List (Option ℚ), (∀ x ∈ v, x = none) →
      fillna v = List.replicate v.length 0) ∧
    (∀ v ∈ pixels, model (fillna v) ∈ predicted model pixels) := by
  refine ⟨List.length_map _ _, ?_, ?_⟩
  · intro v hv
    induction v with
    | nil => rfl
    | cons x t ihv =>
      have hx : x = none := hv x (List.mem_cons_self x t)
      have ht := ihv (fun y hy => hv y (List.mem_cons_of_mem x hy))
      simp only [fillna, List.map_cons, List.length_cons, List.replicate_succ, hx,
        Option.getD_none, List.cons.injEq, true_and]
      simpa [fillna] using ht
  · intro v hv
    exact List.mem_map_of_mem _ hv

/-- Witness for C10 on a concrete grid of one pixel with both features
absent, classified by a concrete (length-counting) model. -/
theorem predicted_fillna_zero_total_witness :
    fillna [none, none] = List.replicate 2 0 ∧
    (fun v : List ℚ => v.length) (fillna [none, none])
      ∈ predicted (fun v => v.length) [[none, none]] :=
  ⟨(predicted_fillna_zero_total (fun v => v.length) [[none, none]]).2.1 [none, none]
      (by simp),
   (predicted_fillna_zero_total (fun v => v.length) [[none, none]]).2.2 [none, none]
      (by simp)⟩

end Coastal
